import Mathlib

/-!
Verification of the cache-lineage / delta-export / recompute / fan-in
example agents of this repository, as a shallow embedding in Lean 4.

Conventions used throughout:
- A cache segment (`KvPage`) is modelled as an opaque `Nat` handle; only the
  ordering and identity of pages matter to the claims, never their numeric
  kernel content.
- Rust `format!` string building is modelled by `String.append` (`++`).
- The durable key-value store is modelled as a function from key to
  `Option String` (or, where an agent immediately parses the value, directly
  to the parsed payload).
- Text manipulated character-wise (prefix tests, replacement, tag scanning)
  is modelled as `List Char`; keys that are only built and compared stay
  `String`.
- A Rust panic (out-of-bounds index) is modelled by an `Option` result being
  `none`; `anyhow::bail!` / `ok_or_else` failures are modelled by `Except`.
-/

/-- A cache segment handle. Segments are opaque to the lineage protocol. -/
def KvPage : Type := Nat

instance : DecidableEq KvPage := inferInstanceAs (DecidableEq Nat)

instance : OfNat KvPage n := ⟨(n : Nat)⟩

/-- The lineage record persisted by `start_agent` and `continue_agent`
(`AgentMeta` in both `src/example-apps/start_agent/src/lib.rs` and
`src/example-apps/continue_agent/src/lib.rs`): full token history, fill of
the final cache page, and the ordered chain of exported segment keys. -/
structure AgentMeta where
  token_ids : List Nat
  kv_page_last_len : Nat
  kv_chain : List String
deriving DecidableEq

/-- The outcome of an agent's export phase: the segment key it exported
under, the pages it exported, the store key of its metadata record, and the
record itself. -/
structure ExportResult where
  kv_key : String
  exported_pages : List KvPage
  meta_key : String
  meta : AgentMeta
deriving DecidableEq

/-- Export phase of `continue_agent` (`src/example-apps/continue_agent/src/lib.rs`,
lines 74-104): compute `new_pages_count = total_pages - imported_pages_count`;
if positive, export the slice `kv_pages[imported_pages_count..]` under
`"{task_id}_kv"`, otherwise export an empty list under the same key; then
push the key onto a copy of the parent chain and persist the metadata under
`"{task_id}_meta"`. -/
def continueAgentFinish (parent_chain : List String) (task_id : String)
    (kv_pages : List KvPage) (imported_pages_count : Nat)
    (token_ids : List Nat) (kv_page_last_len : Nat) : ExportResult :=
  let total_pages := kv_pages.length
  let new_pages_count := total_pages - imported_pages_count
  let my_kv_key := task_id ++ "_kv"
  let exported := if new_pages_count > 0 then kv_pages.drop imported_pages_count else []
  let current_chain := parent_chain ++ [my_kv_key]
  { kv_key := my_kv_key
    exported_pages := exported
    meta_key := task_id ++ "_meta"
    meta :=
      { token_ids := token_ids
        kv_page_last_len := kv_page_last_len
        kv_chain := current_chain } }

/-- Export phase of `start_agent` (`src/example-apps/start_agent/src/lib.rs`,
lines 50-68): a root task exports all of its pages under `"{task_id}_kv"` and
records the bootstrap chain containing exactly that one key. -/
def startAgentFinish (task_id : String) (kv_pages : List KvPage)
    (token_ids : List Nat) (kv_page_last_len : Nat) : ExportResult :=
  let kv_resource_name := task_id ++ "_kv"
  let my_chain := [kv_resource_name]
  { kv_key := kv_resource_name
    exported_pages := kv_pages
    meta_key := task_id ++ "_meta"
    meta :=
      { token_ids := token_ids
        kv_page_last_len := kv_page_last_len
        kv_chain := my_chain } }

/-- C1: the chain persisted by a non-root task equals its base ancestor's
chain with exactly the task's own export key appended at the end (so its
length grows by one and the ancestor chain survives as a prefix of it), and
the chain persisted by a root task has length exactly one. -/
theorem kv_chain_append_only_c1 (parent_chain : List String) (task_id : String)
    (kv_pages root_pages : List KvPage) (imported_pages_count : Nat)
    (token_ids root_token_ids : List Nat) (last_len root_last_len : Nat) :
    (continueAgentFinish parent_chain task_id kv_pages imported_pages_count
        token_ids last_len).meta.kv_chain = parent_chain ++ [task_id ++ "_kv"] ∧
    (continueAgentFinish parent_chain task_id kv_pages imported_pages_count
        token_ids last_len).meta.kv_chain.length = parent_chain.length + 1 ∧
    (continueAgentFinish parent_chain task_id kv_pages imported_pages_count
        token_ids last_len).meta.kv_chain.take parent_chain.length = parent_chain ∧
    (continueAgentFinish parent_chain task_id kv_pages imported_pages_count
        token_ids last_len).meta.kv_chain.getLast? =
      some (continueAgentFinish parent_chain task_id kv_pages imported_pages_count
        token_ids last_len).kv_key ∧
    (startAgentFinish task_id root_pages root_token_ids root_last_len).meta.kv_chain.length
      = 1 := by
  refine ⟨rfl, by simp [continueAgentFinish], ?_, ?_, rfl⟩
  · simp [continueAgentFinish, List.take_left]
  · simp [continueAgentFinish, List.getLast?_concat]

/-- C2: the delta exporter computes `new_pages_count` as total minus imported;
when it is positive it exports exactly the page slice from the imported count
to the end, when it is zero it exports the empty list, and in both cases the
export key is the task's own key `"{task_id}_kv"`. -/
theorem delta_export_slice_c2 (parent_chain : List String) (task_id : String)
    (kv_pages : List KvPage) (imported_pages_count : Nat)
    (token_ids : List Nat) (last_len : Nat) :
    (continueAgentFinish parent_chain task_id kv_pages imported_pages_count
        token_ids last_len).kv_key = task_id ++ "_kv" ∧
    (kv_pages.length - imported_pages_count > 0 →
      (continueAgentFinish parent_chain task_id kv_pages imported_pages_count
          token_ids last_len).exported_pages = kv_pages.drop imported_pages_count) ∧
    (kv_pages.length - imported_pages_count = 0 →
      (continueAgentFinish parent_chain task_id kv_pages imported_pages_count
          token_ids last_len).exported_pages = []) := by
  refine ⟨rfl, fun h => ?_, fun h => ?_⟩
  · simp [continueAgentFinish, h]
  · simp [continueAgentFinish, h]

/-- Witness for C2 at concrete inputs: three pages with one imported yields
the two-page tail; one page with one imported yields the empty export. -/
theorem delta_export_slice_c2_witness :
    (continueAgentFinish [] "t" [0, 1, 2] 1 [] 0).exported_pages = [0, 1, 2].drop 1 ∧
    (continueAgentFinish [] "t" [0] 1 [] 0).exported_pages = [] :=
  ⟨(delta_export_slice_c2 [] "t" [0, 1, 2] 1 [] 0).2.1 (by decide),
   (delta_export_slice_c2 [] "t" [0] 1 [] 0).2.2 (by decide)⟩

/-- Importing a list of chain keys in order (the `for key in &load_list`
loops of `continue_agent` lines 50-53 and `merge_agent` lines 75-79): the
page lists returned for each key are appended in chain order. `store` models
`queue.import_kv_pages`. -/
def importChain (store : String → List KvPage) (keys : List String) : List KvPage :=
  (keys.map store).flatten

/-- Load-list computation of `merge_agent`
(`src/example-apps/merge_agent/src/lib.rs`, lines 68-72): start from the
base record's `kv_chain`; if it is empty (an absent field deserializes to
empty there), push the single legacy key `"{base_id}_kv"`. -/
def mergeLoadList (kv_chain : List String) (base_id : String) : List String :=
  if kv_chain.isEmpty then kv_chain ++ [base_id ++ "_kv"] else kv_chain

/-- Pages imported by `merge_agent` for its base ancestor. -/
def mergeImportPages (store : String → List KvPage) (kv_chain : List String)
    (base_id : String) : List KvPage :=
  importChain store (mergeLoadList kv_chain base_id)

/-- Pages imported by `continue_agent` for its parent
(`src/example-apps/continue_agent/src/lib.rs`, lines 48-53): the parent's
`kv_chain` is cloned and iterated directly; no legacy-key fallback exists on
this path (the comment at lines 46-47 mentions one, but no code implements
it). -/
def continueImportPages (store : String → List KvPage) (kv_chain : List String) :
    List KvPage :=
  importChain store kv_chain

/-- A store with one page recorded under the legacy key of ancestor `anc`. -/
def legacyStore : String → List KvPage :=
  fun k => if k = "anc_kv" then [7] else []

/-- C3 counterexample: for an ancestor record with an empty `kv_chain`, the
`continue_agent` resolver imports nothing at all, while the legacy key
`"anc_kv"` holds a page; so the claimed universal legacy-key fallback fails
on the `continue_agent` path (only `merge_agent` implements it). -/
theorem chain_fallback_c3_counterexample :
    continueImportPages legacyStore [] = [] ∧
    mergeImportPages legacyStore [] "anc" = [7] ∧
    continueImportPages legacyStore [] ≠ mergeImportPages legacyStore [] "anc" := by
  refine ⟨rfl, by decide, by decide⟩

/-- C3 amended: the `merge_agent` resolver falls back to the single legacy
key `"{base_id}_kv"` exactly when the record's `kv_chain` is empty and
otherwise imports every listed key in order, concatenating the results; the
`continue_agent` resolver always imports exactly the listed keys in order,
with no fallback (an empty chain imports nothing). -/
theorem chain_fallback_c3 (store : String → List KvPage) (kv_chain : List String)
    (base_id : String) :
    (kv_chain = [] → mergeImportPages store kv_chain base_id = store (base_id ++ "_kv")) ∧
    (kv_chain ≠ [] → mergeImportPages store kv_chain base_id = importChain store kv_chain) ∧
    continueImportPages store kv_chain = importChain store kv_chain := by
  refine ⟨fun h => ?_, fun h => ?_, rfl⟩
  · subst h; simp [mergeImportPages, mergeLoadList, importChain]
  · simp [mergeImportPages, mergeLoadList, h]

/-- Witness for C3 (amended) at concrete inputs: the empty-chain fallback of
`merge_agent` and the direct import of a nonempty chain. -/
theorem chain_fallback_c3_witness :
    mergeImportPages legacyStore [] "anc" = legacyStore ("anc" ++ "_kv") ∧
    mergeImportPages legacyStore ["k1"] "anc" = importChain legacyStore ["k1"] :=
  ⟨(chain_fallback_c3 legacyStore [] "anc").1 rfl,
   (chain_fallback_c3 legacyStore ["k1"] "anc").2.1 (by decide)⟩

/-- The metadata record persisted by `story_agent`
(`src/example-apps/story_agent/src/lib.rs`, lines 34-37): only the token
history, with no `kv_page_last_len` and no `kv_chain` field. -/
structure TaskMetadata where
  token_ids : List Nat
deriving DecidableEq

/-- Export phase of the recompute-fallback path
(`src/example-apps/story_agent/src/lib.rs`, lines 195-200): pages are
exported under the bare task identifier (`&req.task_id`, no suffix), and the
`TaskMetadata` record is persisted under `"{task_id}_meta"`. -/
def storyAgentFinish (task_id : String) (token_history : List Nat) :
    String × String × TaskMetadata :=
  (task_id, task_id ++ "_meta", { token_ids := token_history })

/-- C4 counterexample: for task identifier `"t"`, the recompute path exports
its pages under key `"t"` while the delta exporter uses `"t_kv"`; the two
strategies do not share the segment key convention. -/
theorem story_export_schema_c4_counterexample :
    (storyAgentFinish "t" []).1 ≠ (continueAgentFinish [] "t" [] 0 [] 0).kv_key := by
  decide

/-- C4 amended: the recompute-fallback path persists its metadata under the
same `"{task_id}_meta"` key as the delta exporter, but exports its cache
pages under the bare task identifier rather than `"{task_id}_kv"`, and its
record carries only `token_ids` (no `kv_page_last_len`, no `kv_chain`), so a
descendant reading the store can tell which strategy produced the record. -/
theorem story_export_schema_c4 (task_id : String) (hist : List Nat)
    (parent_chain : List String) (pages : List KvPage) (imported : Nat)
    (toks : List Nat) (ll : Nat) :
    (storyAgentFinish task_id hist).2.1 =
      (continueAgentFinish parent_chain task_id pages imported toks ll).meta_key ∧
    (storyAgentFinish task_id hist).1 = task_id ∧
    (storyAgentFinish task_id hist).1 ≠
      (continueAgentFinish parent_chain task_id pages imported toks ll).kv_key ∧
    (storyAgentFinish task_id hist).2.2.token_ids = hist := by
  refine ⟨rfl, rfl, ?_, rfl⟩
  intro h
  have hlen := congrArg String.length h
  simp [storyAgentFinish, continueAgentFinish, String.length_append] at hlen
  exact (by decide : ¬ ("_kv" : String).length = 0) hlen

/-- Witness for C4 (amended) at a concrete task identifier. -/
theorem story_export_schema_c4_witness :
    (storyAgentFinish "s7" [1]).2.1 = (continueAgentFinish [] "s7" [] 0 [] 0).meta_key ∧
    (storyAgentFinish "s7" [1]).1 ≠ (continueAgentFinish [] "s7" [] 0 [] 0).kv_key :=
  ⟨(story_export_schema_c4 "s7" [1] [] [] 0 [] 0).1,
   (story_export_schema_c4 "s7" [1] [] [] 0 [] 0).2.2.1⟩

/-- Parent-metadata fetch of `continue_agent`
(`src/example-apps/continue_agent/src/lib.rs`, lines 37-39): a missing
record under `"{parent_id}_meta"` aborts the task with a descriptive error
before any generation. -/
def continueFetchParentMeta (store : String → Option String) (parent_id : String) :
    Except String String :=
  match store (parent_id ++ "_meta") with
  | some meta_json => Except.ok meta_json
  | none => Except.error "Parent meta not found"

/-- Base-metadata fetch of `merge_agent`
(`src/example-apps/merge_agent/src/lib.rs`, lines 55-57): a missing record
under `"{base_id}_meta"` aborts with a descriptive error. -/
def mergeFetchBaseMeta (store : String → Option String) (base_id : String) :
    Except String String :=
  match store (base_id ++ "_meta") with
  | some meta_json => Except.ok meta_json
  | none => Except.error "Base meta not found"

/-- Reference-text fetch of `merge_agent`
(`src/example-apps/merge_agent/src/lib.rs`, lines 44-45): a missing output
under `"{ref_id}_output"` is replaced by the placeholder string
`"[(Missing Data)]"` via `unwrap_or_else`; the task keeps running. -/
def mergeFetchReference (store : String → Option String) (ref_id : String) : String :=
  (store (ref_id ++ "_output")).getD "[(Missing Data)]"

/-- History resolution of `story_agent`
(`src/example-apps/story_agent/src/lib.rs`, lines 66-94): `token_history`
starts empty; mode `"start"` skips loading; modes `"continue"` and `"merge"`
load the parent record when present (a missing or unparseable record, here
collapsed into the `Option`, only logs a warning and leaves the history
empty); every other mode string falls into the catch-all arm, which logs
`treating as continue` but loads nothing. `store` models `store_get`
composed with the `serde_json` parse of `TaskMetadata`. -/
def storyResolveHistory (mode : String) (parent_task_id : Option String)
    (store : String → Option (List Nat)) : List Nat :=
  if mode = "start" then []
  else if mode = "continue" || mode = "merge" then
    match parent_task_id with
    | some parent_id => (store (parent_id ++ "_meta")).getD []
    | none => []
  else []

/-- C5 counterexample: with an empty store, `merge_agent` substitutes the
placeholder `"[(Missing Data)]"` for a missing reference output instead of
failing, and `story_agent` silently proceeds with an empty history when its
parent's record is missing; neither path fails fatally as the claim
requires. -/
theorem missing_ancestor_c5_counterexample :
    mergeFetchReference (fun _ => none) "r" = "[(Missing Data)]" ∧
    storyResolveHistory "continue" (some "p") (fun _ => none) = [] := by
  exact ⟨rfl, rfl⟩

/-- C5 amended: a missing base-ancestor record is fatal with a descriptive
error (and no generation) in `continue_agent` and `merge_agent`; but
`merge_agent` substitutes the placeholder `"[(Missing Data)]"` for a missing
reference predecessor's output, and `story_agent` silently starts with an
empty history when the parent record is missing. -/
theorem missing_ancestor_c5 (store : String → Option String)
    (store2 : String → Option (List Nat)) (parent_id ref_id : String)
    (h1 : store (parent_id ++ "_meta") = none)
    (h2 : store (ref_id ++ "_output") = none)
    (h3 : store2 (parent_id ++ "_meta") = none) :
    continueFetchParentMeta store parent_id = Except.error "Parent meta not found" ∧
    mergeFetchBaseMeta store parent_id = Except.error "Base meta not found" ∧
    mergeFetchReference store ref_id = "[(Missing Data)]" ∧
    storyResolveHistory "continue" (some parent_id) store2 = [] := by
  refine ⟨?_, ?_, ?_, ?_⟩
  · simp [continueFetchParentMeta, h1]
  · simp [mergeFetchBaseMeta, h1]
  · simp [mergeFetchReference, h2]
  · simp [storyResolveHistory, h3]

/-- Witness for C5 (amended) on the everywhere-empty store. -/
theorem missing_ancestor_c5_witness :
    continueFetchParentMeta (fun _ => none) "p" = Except.error "Parent meta not found" ∧
    mergeFetchBaseMeta (fun _ => none) "p" = Except.error "Base meta not found" ∧
    mergeFetchReference (fun _ => none) "r" = "[(Missing Data)]" ∧
    storyResolveHistory "continue" (some "p") (fun _ => none) = [] :=
  missing_ancestor_c5 (fun _ => none) (fun _ => none) "p" "r" rfl rfl rfl

/-- A store holding a parsed parent record with history `[1, 2, 3]` under
`"p_meta"`, used to exhibit the unknown-mode behavior. -/
def storyStoreP : String → Option (List Nat) :=
  fun k => if k = "p_meta" then some [1, 2, 3] else none

/-- C6: for the unrecognized mode string `"resume"` the catch-all arm loads
no history at all (the parent record is never read), even though the code
logs that it is treating the mode as `"continue"` and mode `"continue"`
itself does load the parent's `[1, 2, 3]`; the claim that unknown modes
behave exactly like `"continue"` is contradicted by the code's own message. -/
theorem unknown_mode_c6 :
    storyResolveHistory "resume" (some "p") storyStoreP = [] ∧
    storyResolveHistory "continue" (some "p") storyStoreP = [1, 2, 3] ∧
    storyResolveHistory "resume" (some "p") storyStoreP ≠
      storyResolveHistory "continue" (some "p") storyStoreP := by
  refine ⟨by decide, by decide, by decide⟩

/-- Parent selection of `continue_agent`
(`src/example-apps/continue_agent/src/lib.rs`, line 31): the unchecked index
`&input.parent_task_ids[0]`; the `none` case models the Rust out-of-bounds
panic on an empty list. -/
def continueAgentParentAccess (parent_task_ids : List String) : Option String :=
  parent_task_ids[0]?

/-- Parent selection of `continue_agent_standby`
(`src/example-apps/continue_agent_standby/src/lib.rs`, lines 31-34): an
explicit emptiness check that bails with an error before the index. -/
def standbyParentAccess : List String → Except String String
  | [] => Except.error "Agent requires a parent task ID."
  | parent_id :: _ => Except.ok parent_id

/-- C10: on an empty `parent_task_ids` list the `continue_agent` index
access is out of bounds (modelled as `none`, a panic) while the standby
variant returns a descriptive error; on any non-empty list both agree on the
first element, so the only divergence is the missing emptiness check. -/
theorem empty_parent_panic_c10 (ids : List String) :
    (ids = [] → continueAgentParentAccess ids = none ∧
      standbyParentAccess ids = Except.error "Agent requires a parent task ID.") ∧
    (∀ p rest, ids = p :: rest → continueAgentParentAccess ids = some p ∧
      standbyParentAccess ids = Except.ok p) := by
  refine ⟨fun h => ?_, fun p rest h => ?_⟩
  · subst h; exact ⟨rfl, rfl⟩
  · subst h; exact ⟨by simp [continueAgentParentAccess], rfl⟩

/-- Witness for C10: the empty input and a singleton input. -/
theorem empty_parent_panic_c10_witness :
    (continueAgentParentAccess [] = none ∧
      standbyParentAccess [] = Except.error "Agent requires a parent task ID.") ∧
    (continueAgentParentAccess ["p"] = some "p" ∧
      standbyParentAccess ["p"] = Except.ok "p") :=
  ⟨(empty_parent_panic_c10 []).1 rfl, (empty_parent_panic_c10 ["p"]).2 "p" [] rfl⟩

/-- Boolean substring test on character lists, mirroring Rust
`str::contains` for a non-empty needle: some suffix of the text starts with
the pattern. -/
def containsSub (pat : List Char) : List Char → Bool
  | [] => pat.isEmpty
  | c :: rest => pat.isPrefixOf (c :: rest) || containsSub pat rest

/-- Left-to-right replacement of every non-overlapping occurrence of `pat`
by the empty string, mirroring Rust `str::replace(pat, "")` as used by the
news editor (the empty-pattern case, which Rust treats specially, never
arises in this code and is mapped to the identity). -/
def replaceAll (pat : List Char) : List Char → List Char
  | [] => []
  | c :: rest =>
    if h : pat ≠ [] ∧ pat.isPrefixOf (c :: rest) = true then
      replaceAll pat ((c :: rest).drop pat.length)
    else
      c :: replaceAll pat rest
termination_by l => l.length
decreasing_by
  · simp only [List.length_drop, List.length_cons]
    have hp : 0 < pat.length := List.length_pos.mpr h.1
    omega
  · simp

/-- A list is a Boolean prefix of itself followed by anything. -/
theorem isPrefixOf_append_self (l m : List Char) : l.isPrefixOf (l ++ m) = true := by
  induction l with
  | nil => simp [List.isPrefixOf]
  | cons a as ih => simp [List.isPrefixOf, ih]

/-- Replacing a pattern at its own leading occurrence consumes exactly the
pattern. -/
theorem replaceAll_append_self (pat b : List Char) (hne : pat ≠ []) :
    replaceAll pat (pat ++ b) = replaceAll pat b := by
  obtain ⟨p, ps, rfl⟩ : ∃ p ps, pat = p :: ps := by
    cases pat with
    | nil => exact absurd rfl hne
    | cons p ps => exact ⟨p, ps, rfl⟩
  rw [List.cons_append, replaceAll]
  rw [dif_pos ⟨hne, by rw [← List.cons_append]; exact isPrefixOf_append_self _ b⟩]
  congr 1
  rw [← List.cons_append, List.drop_left]

/-- Text with no occurrence of the pattern is left unchanged by
`replaceAll`. -/
theorem replaceAll_of_not_contains (pat b : List Char)
    (h : containsSub pat b = false) : replaceAll pat b = b := by
  induction b with
  | nil => rw [replaceAll]
  | cons c rest ih =>
    rw [containsSub] at h
    simp only [Bool.or_eq_false_iff] at h
    rw [replaceAll, dif_neg (by simp [h.1]), ih h.2]

/-- The literal opening of an inline save directive. -/
def saveTagOpen : List Char := "[SAVE:".toList

/-- The literal opening of an inline load directive. -/
def loadTagOpen : List Char := "[LOAD:".toList

/-- The per-node result record built by `agent_generator` and
`agent_summarizer` (`AgentOutput` in both sources). -/
structure AgentOutput where
  node_id : String
  content : List Char
  status : String

/-- Tail of `agent_generator` (`src/example-apps/agent_generator/src/lib.rs`,
lines 66-81): after `ctx.generate` returns, the text is placed verbatim into
the stored `AgentOutput.content` and returned verbatim as the task result;
no transformation is applied between generation and return. -/
def generatorFinish (node_id : String) (generated_text : List Char) :
    AgentOutput × List Char :=
  ({ node_id := node_id, content := generated_text, status := "success" },
   generated_text)

/-- Tail of `agent_summarizer` (`src/example-apps/agent_summarizer/src/lib.rs`,
lines 79-94): identical shape — the summary is stored and returned
verbatim. -/
def summarizerFinish (node_id : String) (summary : List Char) :
    AgentOutput × List Char :=
  ({ node_id := node_id, content := summary, status := "success" }, summary)

/-- C8 counterexample: a generated text echoing a save tag is returned by
`agent_generator` with the tag still present (and likewise stored), so the
claimed stripping of `[SAVE:...]` / `[LOAD:...]` echoes does not happen. -/
theorem tag_strip_c8_counterexample :
    containsSub saveTagOpen (generatorFinish "n" "x[SAVE:k]y".toList).2 = true ∧
    containsSub loadTagOpen (summarizerFinish "n" "a[LOAD:k]b".toList).2 = true := by
  refine ⟨by decide, by decide⟩

/-- C8 amended: the generator and summarizer return and store the generated
text completely unchanged; in particular any echoed `[SAVE:...]` or
`[LOAD:...]` tag substring survives into the output delivered to the caller
and into the stored record, since no stripping step exists. -/
theorem tag_strip_c8 (node_id : String) (g s : List Char)
    (hg : containsSub saveTagOpen g = true)
    (hs : containsSub loadTagOpen s = true) :
    (generatorFinish node_id g).2 = g ∧
    (generatorFinish node_id g).1.content = g ∧
    containsSub saveTagOpen (generatorFinish node_id g).2 = true ∧
    (summarizerFinish node_id s).2 = s ∧
    (summarizerFinish node_id s).1.content = s ∧
    containsSub loadTagOpen (summarizerFinish node_id s).2 = true :=
  ⟨rfl, rfl, hg, rfl, rfl, hs⟩

/-- Witness for C8 (amended) at concrete echoed texts. -/
theorem tag_strip_c8_witness :
    (generatorFinish "n" "x[SAVE:k]y".toList).2 = "x[SAVE:k]y".toList ∧
    (generatorFinish "n" "x[SAVE:k]y".toList).1.content = "x[SAVE:k]y".toList ∧
    containsSub saveTagOpen (generatorFinish "n" "x[SAVE:k]y".toList).2 = true ∧
    (summarizerFinish "n" "a[LOAD:k]b".toList).2 = "a[LOAD:k]b".toList ∧
    (summarizerFinish "n" "a[LOAD:k]b".toList).1.content = "a[LOAD:k]b".toList ∧
    containsSub loadTagOpen (summarizerFinish "n" "a[LOAD:k]b".toList).2 = true :=
  tag_strip_c8 "n" "x[SAVE:k]y".toList "a[LOAD:k]b".toList (by decide) (by decide)

/-- Loop state of the recompute generation phase of `story_agent`
(`src/example-apps/story_agent/src/lib.rs`, lines 133-190): the token
history accumulated so far, the absolute position counter, and the batch of
tokens about to be fed to the next forward pass. -/
structure GenState where
  token_history : List Nat
  current_pos : Nat
  tokens_to_process : List Nat
deriving DecidableEq

/-- Initial generation state (`src/example-apps/story_agent/src/lib.rs`,
lines 136-137): `current_pos` starts at `token_history.len()` and the first
batch is the tokenized prompt. -/
def initGenState (token_history input_tokens : List Nat) : GenState :=
  { token_history := token_history
    current_pos := token_history.length
    tokens_to_process := input_tokens }

/-- The position indices fed to one forward pass
(`src/example-apps/story_agent/src/lib.rs`, lines 144-146):
`(0..tokens_to_process.len()).map(|i| current_pos + i)`. -/
def stepPositions (s : GenState) : List Nat :=
  (List.range s.tokens_to_process.length).map (fun i => s.current_pos + i)

/-- One accepted iteration of the generation loop
(`src/example-apps/story_agent/src/lib.rs`, lines 157-171): the processed
batch is appended to the history, `current_pos` advances by the batch
length, and the next batch is the single sampled token. -/
def genStep (s : GenState) (next_token : Nat) : GenState :=
  { token_history := s.token_history ++ s.tokens_to_process
    current_pos := s.current_pos + s.tokens_to_process.length
    tokens_to_process := [next_token] }

/-- Run the generation loop over a list of sampled next tokens. -/
def runGen (s : GenState) : List Nat → GenState
  | [] => s
  | t :: ts => runGen (genStep s t) ts

/-- The position indices fed to the prefill forward pass over the restored
history (`src/example-apps/story_agent/src/lib.rs`, line 113):
`(0..total_hist).map(|i| i)`. -/
def prefillPositions (total_hist : Nat) : List Nat := List.range total_hist

/-- The position counter always equals the history length along the loop. -/
theorem runGen_pos_eq_length (nexts : List Nat) (s : GenState)
    (h : s.current_pos = s.token_history.length) :
    (runGen s nexts).current_pos = (runGen s nexts).token_history.length := by
  induction nexts generalizing s with
  | nil => exact h
  | cons t ts ih =>
    exact ih (genStep s t) (by simp [genStep, h])

/-- C9: in the recompute path, the prefill pass assigns the history tokens
the contiguous zero-based positions `0, ..., n-1`, and after any number of
accepted generation iterations the positions fed to the next forward pass
are exactly the contiguous block starting at the current total token count
(`current_pos` never drifts from the history length). -/
theorem recompute_positions_c9 (hist input_tokens nexts : List Nat) :
    prefillPositions hist.length = List.range' 0 hist.length ∧
    (runGen (initGenState hist input_tokens) nexts).current_pos =
      (runGen (initGenState hist input_tokens) nexts).token_history.length ∧
    stepPositions (runGen (initGenState hist input_tokens) nexts) =
      List.range' (runGen (initGenState hist input_tokens) nexts).token_history.length
        (runGen (initGenState hist input_tokens) nexts).tokens_to_process.length := by
  have hpos : (runGen (initGenState hist input_tokens) nexts).current_pos =
      (runGen (initGenState hist input_tokens) nexts).token_history.length :=
    runGen_pos_eq_length nexts _ rfl
  refine ⟨List.range_eq_range' hist.length, hpos, ?_⟩
  rw [stepPositions, hpos, List.range'_eq_map_range]

/-- The classification tag tested by the editor with `starts_with`
(`src/example-apps/news_agent/src/lib.rs`, line 79). -/
def politicsTag : List Char := "POLITICS:".toList

/-- The replacement pattern used by the editor (line 81), tag plus space. -/
def politicsTagSp : List Char := "POLITICS: ".toList

/-- Tag tested with `starts_with` at line 83. -/
def techTag : List Char := "TECH:".toList

/-- Replacement pattern of line 84. -/
def techTagSp : List Char := "TECH: ".toList

/-- Tag tested with `starts_with` at line 85. -/
def sportsTag : List Char := "SPORTS:".toList

/-- Replacement pattern of line 87. -/
def sportsTagSp : List Char := "SPORTS: ".toList

/-- Desk role labels chosen at lines 53-55. -/
def politicsLabel : List Char := "POLITICS".toList

/-- Desk label for the tech report. -/
def techLabel : List Char := "TECH".toList

/-- Desk label for the sports report. -/
def sportsLabel : List Char := "SPORTS".toList

/-- A desk's payload (`src/example-apps/news_agent/src/lib.rs`, line 58):
`format!("{}: {}", prefix, analysis)`. -/
def deskPayload (label analysis : List Char) : List Char :=
  label ++ ": ".toList ++ analysis

/-- The editor's three report slots with their initial placeholder values
(`src/example-apps/news_agent/src/lib.rs`, lines 69-71). -/
structure Report where
  p : List Char
  t : List Char
  s : List Char
deriving DecidableEq

/-- The editor's initial report state. -/
def initReport : Report :=
  { p := "(Missing Politics)".toList
    t := "(Missing Tech)".toList
    s := "(Missing Sports)".toList }

/-- One received message classified by leading tag
(`src/example-apps/news_agent/src/lib.rs`, lines 79-88): the slot matching
the first recognized tag is overwritten with the message with the
tag-plus-space pattern removed; an unrecognized message changes nothing. -/
def classify (r : Report) (msg : List Char) : Report :=
  if politicsTag.isPrefixOf msg = true then { r with p := replaceAll politicsTagSp msg }
  else if techTag.isPrefixOf msg = true then { r with t := replaceAll techTagSp msg }
  else if sportsTag.isPrefixOf msg = true then { r with s := replaceAll sportsTagSp msg }
  else r

/-- The editor's receive loop (`src/example-apps/news_agent/src/lib.rs`,
lines 75-89) over the sequence of dequeued messages. -/
def editorRun (msgs : List (List Char)) : Report :=
  msgs.foldl classify initReport

/-- The aggregation prompt built by the editor
(`src/example-apps/news_agent/src/lib.rs`, lines 92-95). -/
def editorPrompt (r : Report) (instruction : List Char) : List Char :=
  "Combine these:\n[POLITICS]\n".toList ++ r.p ++ "\n\n[TECH]\n".toList ++ r.t
    ++ "\n\n[SPORTS]\n".toList ++ r.s ++ "\n\nINSTRUCTION:\n".toList ++ instruction

/-- All six arrival orders of three distinct messages on one topic. -/
def sixOrders (m1 m2 m3 : List Char) : List (List (List Char)) :=
  [[m1, m2, m3], [m1, m3, m2], [m2, m1, m3], [m2, m3, m1], [m3, m1, m2], [m3, m2, m1]]

/-- A Boolean prefix test fails whenever the heads differ. -/
theorem isPrefixOf_ne_head (a : Char) (l : List Char) (b : Char) (m : List Char)
    (h : (a == b) = false) : (a :: l).isPrefixOf (b :: m) = false := by
  simp only [List.isPrefixOf, h, Bool.false_and]

/-- The politics tag is a prefix of every politics payload. -/
theorem politicsTag_of_politics (b : List Char) :
    politicsTag.isPrefixOf (politicsTagSp ++ b) = true := by
  have hsplit : politicsTagSp = politicsTag ++ [' '] := by decide
  rw [hsplit, List.append_assoc]
  exact isPrefixOf_append_self politicsTag _

/-- The tech tag is a prefix of every tech payload. -/
theorem techTag_of_tech (b : List Char) :
    techTag.isPrefixOf (techTagSp ++ b) = true := by
  have hsplit : techTagSp = techTag ++ [' '] := by decide
  rw [hsplit, List.append_assoc]
  exact isPrefixOf_append_self techTag _

/-- The sports tag is a prefix of every sports payload. -/
theorem sportsTag_of_sports (b : List Char) :
    sportsTag.isPrefixOf (sportsTagSp ++ b) = true := by
  have hsplit : sportsTagSp = sportsTag ++ [' '] := by decide
  rw [hsplit, List.append_assoc]
  exact isPrefixOf_append_self sportsTag _

/-- The politics tag never matches a tech payload. -/
theorem politicsTag_not_tech (b : List Char) :
    politicsTag.isPrefixOf (techTagSp ++ b) = false := by
  have h1 : politicsTag = 'P' :: "OLITICS:".toList := by decide
  have h2 : techTagSp = 'T' :: "ECH: ".toList := by decide
  rw [h1, h2, List.cons_append]
  exact isPrefixOf_ne_head _ _ _ _ (by decide)

/-- The politics tag never matches a sports payload. -/
theorem politicsTag_not_sports (b : List Char) :
    politicsTag.isPrefixOf (sportsTagSp ++ b) = false := by
  have h1 : politicsTag = 'P' :: "OLITICS:".toList := by decide
  have h2 : sportsTagSp = 'S' :: "PORTS: ".toList := by decide
  rw [h1, h2, List.cons_append]
  exact isPrefixOf_ne_head _ _ _ _ (by decide)

/-- The tech tag never matches a sports payload. -/
theorem techTag_not_sports (b : List Char) :
    techTag.isPrefixOf (sportsTagSp ++ b) = false := by
  have h1 : techTag = 'T' :: "ECH:".toList := by decide
  have h2 : sportsTagSp = 'S' :: "PORTS: ".toList := by decide
  rw [h1, h2, List.cons_append]
  exact isPrefixOf_ne_head _ _ _ _ (by decide)

/-- Classifying a politics payload overwrites exactly the politics slot. -/
theorem classify_politics (r : Report) (b : List Char) :
    classify r (politicsTagSp ++ b) =
      { r with p := replaceAll politicsTagSp (politicsTagSp ++ b) } := by
  simp [classify, politicsTag_of_politics]

/-- Classifying a tech payload overwrites exactly the tech slot. -/
theorem classify_tech (r : Report) (b : List Char) :
    classify r (techTagSp ++ b) =
      { r with t := replaceAll techTagSp (techTagSp ++ b) } := by
  simp [classify, politicsTag_not_tech, techTag_of_tech]

/-- Classifying a sports payload overwrites exactly the sports slot. -/
theorem classify_sports (r : Report) (b : List Char) :
    classify r (sportsTagSp ++ b) =
      { r with s := replaceAll sportsTagSp (sportsTagSp ++ b) } := by
  simp [classify, politicsTag_not_sports, techTag_not_sports, sportsTag_of_sports]

/-- Removing the tag pattern from a payload recovers the body when the body
itself has no embedded occurrence of the pattern. -/
theorem strip_payload (pat b : List Char) (hne : pat ≠ [])
    (h : containsSub pat b = false) : replaceAll pat (pat ++ b) = b :=
  (replaceAll_append_self pat b hne).trans (replaceAll_of_not_contains pat b h)

/-- A desk payload is the space-completed tag followed by the body. -/
theorem deskPayload_politics (b : List Char) :
    deskPayload politicsLabel b = politicsTagSp ++ b := by
  have h : politicsLabel ++ ": ".toList = politicsTagSp := by decide
  rw [deskPayload, h]

/-- The tech desk payload in tag-plus-body form. -/
theorem deskPayload_tech (b : List Char) :
    deskPayload techLabel b = techTagSp ++ b := by
  have h : techLabel ++ ": ".toList = techTagSp := by decide
  rw [deskPayload, h]

/-- The sports desk payload in tag-plus-body form. -/
theorem deskPayload_sports (b : List Char) :
    deskPayload sportsLabel b = sportsTagSp ++ b := by
  have h : sportsLabel ++ ": ".toList = sportsTagSp := by decide
  rw [deskPayload, h]

/-- C7: for the three desk payloads tagged `POLITICS`, `TECH` and `SPORTS`
delivered on one topic in any of the six arrival orders, the editor's three
receives leave each body in the slot matching its tag — independent of
arrival position — and the aggregation prompt contains all three bodies
(each appears as a contiguous substring). The bodies are assumed not to
embed a tag pattern themselves, since the editor's `replace` removes every
occurrence of the pattern. -/
theorem news_fanin_c7 (b1 b2 b3 instruction : List Char)
    (h1 : containsSub politicsTagSp b1 = false)
    (h2 : containsSub techTagSp b2 = false)
    (h3 : containsSub sportsTagSp b3 = false)
    (msgs : List (List Char))
    (hm : msgs ∈ sixOrders (deskPayload politicsLabel b1)
      (deskPayload techLabel b2) (deskPayload sportsLabel b3)) :
    (editorRun msgs).p = b1 ∧ (editorRun msgs).t = b2 ∧ (editorRun msgs).s = b3 ∧
    (editorPrompt (editorRun msgs) instruction =
      "Combine these:\n[POLITICS]\n".toList ++ b1 ++ ("\n\n[TECH]\n".toList ++ b2
        ++ ("\n\n[SPORTS]\n".toList ++ b3 ++ ("\n\nINSTRUCTION:\n".toList ++ instruction)))) := by
  have key : editorRun msgs = { p := b1, t := b2, s := b3 } := by
    rw [deskPayload_politics, deskPayload_tech, deskPayload_sports] at hm
    have s1 := strip_payload politicsTagSp b1 (by decide) h1
    have s2 := strip_payload techTagSp b2 (by decide) h2
    have s3 := strip_payload sportsTagSp b3 (by decide) h3
    simp only [sixOrders, List.mem_cons, List.not_mem_nil, or_false] at hm
    rcases hm with rfl | rfl | rfl | rfl | rfl | rfl <;>
      simp [editorRun, classify_politics, classify_tech, classify_sports, s1, s2, s3]
  rw [key]
  exact ⟨rfl, rfl, rfl, by simp [editorPrompt]⟩

/-- Witness for C7 at concrete bodies and one concrete arrival order. -/
theorem news_fanin_c7_witness :
    (editorRun [deskPayload techLabel "tb".toList, deskPayload sportsLabel "sb".toList,
        deskPayload politicsLabel "pb".toList]).p = "pb".toList ∧
    (editorRun [deskPayload techLabel "tb".toList, deskPayload sportsLabel "sb".toList,
        deskPayload politicsLabel "pb".toList]).t = "tb".toList ∧
    (editorRun [deskPayload techLabel "tb".toList, deskPayload sportsLabel "sb".toList,
        deskPayload politicsLabel "pb".toList]).s = "sb".toList := by
  have h := news_fanin_c7 "pb".toList "tb".toList "sb".toList []
    (by decide) (by decide) (by decide)
    [deskPayload techLabel "tb".toList, deskPayload sportsLabel "sb".toList,
      deskPayload politicsLabel "pb".toList]
    (by simp [sixOrders])
  exact ⟨h.1, h.2.1, h.2.2.1⟩
